import Mathlib

set_option maxHeartbeats 2000000
set_option maxRecDepth 10000

-- ======================================================================
-- Shallow embedding of src/win_device_manager.py (LinMan, Linux Device
-- Manager).  Python strings are modelled as Lean String values; the
-- helpers below implement the exact Python string operations used by the
-- source, written by structural recursion over the character list so that
-- concrete runs reduce inside the kernel.
-- ======================================================================

def strL (s : String) : List Char := s.data

def strOf (l : List Char) : String := String.mk l

-- Python: needle is a prefix of hay.
def isPrefixOfL : List Char → List Char → Bool
  | [], _ => true
  | _ :: _, [] => false
  | a :: as, b :: bs => a == b && isPrefixOfL as bs

-- Python: `needle in hay` (substring containment).
def containsL (needle : List Char) : List Char → Bool
  | [] => needle.isEmpty
  | c :: rest => isPrefixOfL needle (c :: rest) || containsL needle rest

def containsSub (needle hay : String) : Bool := containsL (strL needle) (strL hay)

-- Python: str.lower() / str.upper() (the source only feeds ASCII data).
def pyLower (s : String) : String := strOf ((strL s).map Char.toLower)

def pyUpper (s : String) : String := strOf ((strL s).map Char.toUpper)

-- Python: str.strip() with no argument.
def stripL (l : List Char) : List Char :=
  ((l.dropWhile Char.isWhitespace).reverse.dropWhile Char.isWhitespace).reverse

def pyStrip (s : String) : String := strOf (stripL (strL s))

-- Python: str.startswith / str.endswith (single-string argument).
def pyStartsWith (s pre : String) : Bool := isPrefixOfL (strL pre) (strL s)

def pyEndsWith (s suf : String) : Bool := isPrefixOfL (strL suf).reverse (strL s).reverse

-- Python: str.split(sep) for a non-empty separator.  The fuel argument is
-- the length of the scanned list, which bounds the recursion.
def splitOnFuel (sep : List Char) : Nat → List Char → List (List Char)
  | _, [] => [[]]
  | 0, l => [l]
  | fuel + 1, c :: rest =>
    if !sep.isEmpty && isPrefixOfL sep (c :: rest) then
      [] :: splitOnFuel sep fuel ((c :: rest).drop sep.length)
    else
      match splitOnFuel sep fuel rest with
      | [] => [[c]]
      | h :: t => (c :: h) :: t

def pySplit (s sep : String) : List String :=
  (splitOnFuel (strL sep) (strL s).length (strL s)).map strOf

-- Python: str.split(sep, 1) (maxsplit = 1).
def splitOnceFuel (sep : List Char) : Nat → List Char → Option (List Char × List Char)
  | _, [] => none
  | 0, _ => none
  | fuel + 1, c :: rest =>
    if !sep.isEmpty && isPrefixOfL sep (c :: rest) then
      some ([], (c :: rest).drop sep.length)
    else
      match splitOnceFuel sep fuel rest with
      | some (a, b) => some (c :: a, b)
      | none => none

def pySplit1 (s sep : String) : List String :=
  match splitOnceFuel (strL sep) (strL s).length (strL s) with
  | some (a, b) => [strOf a, strOf b]
  | none => [s]

-- Python: str.replace(pat, rep) (all non-overlapping occurrences, left to
-- right, for a non-empty pattern).
def replaceFuel (pat rep : List Char) : Nat → List Char → List Char
  | _, [] => []
  | 0, l => l
  | fuel + 1, c :: rest =>
    if !pat.isEmpty && isPrefixOfL pat (c :: rest) then
      rep ++ replaceFuel pat rep fuel ((c :: rest).drop pat.length)
    else
      c :: replaceFuel pat rep fuel rest

def pyReplace (s pat rep : String) : String :=
  strOf (replaceFuel (strL pat) (strL rep) (strL s).length (strL s))

-- Python: str.title() — a letter is upper-cased when the previous
-- character is not a cased (alphabetic) character, lower-cased otherwise.
def pyTitleL : List Char → Bool → List Char
  | [], _ => []
  | c :: rest, prevAlpha =>
    (if c.isAlpha then (if prevAlpha then c.toLower else c.toUpper) else c)
      :: pyTitleL rest c.isAlpha

def pyTitle (s : String) : String := strOf (pyTitleL (strL s) false)

-- Python: str.split() with no separator (whitespace runs, no empties).
def wordsAux : List Char → List Char → List (List Char)
  | [], cur => if cur.isEmpty then [] else [cur.reverse]
  | c :: rest, cur =>
    if c.isWhitespace then
      if cur.isEmpty then wordsAux rest [] else cur.reverse :: wordsAux rest []
    else wordsAux rest (c :: cur)

def pyWords (s : String) : List String := (wordsAux (strL s) []).map strOf

-- Fixpoint of the source loop `while '  ' in cleaned: cleaned =
-- cleaned.replace('  ', ' ')`: every maximal run of spaces collapses to a
-- single space (the loop only ever merges adjacent spaces and stops when
-- no double space is left).
def squeezeSpacesFuel : Nat → List Char → List Char
  | _, [] => []
  | 0, l => l
  | fuel + 1, c :: rest =>
    if c == ' ' then ' ' :: squeezeSpacesFuel fuel (rest.dropWhile (· == ' '))
    else c :: squeezeSpacesFuel fuel rest

def squeezeSpaces (s : String) : String :=
  strOf (squeezeSpacesFuel (strL s).length (strL s))

-- Python: sep.join(parts).
def pyJoin (sep : String) : List String → String
  | [] => ""
  | [x] => x
  | x :: y :: rest => x ++ sep ++ pyJoin sep (y :: rest)

-- Python: os.path.basename (the source only passes slash-separated paths).
def pyBasename (p : String) : String := (pySplit p "/").getLastD p

-- Python: str.find(sub) as an optional index.
def findSubIdx (needle : List Char) : List Char → Option Nat
  | [] => if needle.isEmpty then some 0 else none
  | c :: rest =>
    if isPrefixOfL needle (c :: rest) then some 0
    else (findSubIdx needle rest).map (· + 1)

def pyFindOpt (s sub : String) : Option Nat := findSubIdx (strL sub) (strL s)

-- Python slices line[a:b], line[n:], line[:n] with non-negative indices.
def sliceStr (s : String) (a b : Nat) : String := strOf (((strL s).take b).drop a)

def dropStr (s : String) (n : Nat) : String := strOf ((strL s).drop n)

def takeStr (s : String) (n : Nat) : String := strOf ((strL s).take n)

def strLen (s : String) : Nat := (strL s).length

-- Python: int(s) for optionally signed decimal literals (the only int()
-- call in the source parses lsblk size output); none models ValueError.
def pyInt (s : String) : Option Int :=
  let t := stripL (strL s)
  let signDigits : Int × List Char :=
    match t with
    | '+' :: r => (1, r)
    | '-' :: r => (-1, r)
    | r => (1, r)
  if signDigits.2.isEmpty || !signDigits.2.all Char.isDigit then none
  else some (signDigits.1 * signDigits.2.foldl (fun acc c => acc * 10 + ((c.toNat : Int) - 48)) 0)

-- Python truthiness of a string: non-empty.
def pyOr (a b : String) : String := if a == "" then b else a

-- re.match(r'.*\d+$', s): s is non-empty and its last character is a digit.
def strEndsWithDigit (s : String) : Bool :=
  match (strL s).getLast? with
  | some c => c.isDigit
  | none => false

-- re.match(r'^[sh]d[a-z]$', s).
def matchShd (s : String) : Bool :=
  match strL s with
  | [a, b, c] => (a == 's' || a == 'h') && b == 'd' && ('a' ≤ c && c ≤ 'z')
  | _ => false

-- Helper for '\d+' in an anchored regex: consume one or more digits.
def digits1 : List Char → Option (List Char)
  | c :: rest => if c.isDigit then some (rest.dropWhile Char.isDigit) else none
  | [] => none

-- re.match(r'^nvme\d+n\d+$', s).
def matchNvmeMain (s : String) : Bool :=
  match strL s with
  | 'n' :: 'v' :: 'm' :: 'e' :: rest =>
    match digits1 rest with
    | some ('n' :: rest2) =>
      match digits1 rest2 with
      | some [] => true
      | _ => false
    | _ => false
  | _ => false

-- re.sub(r'\x1f|\x1b\[[0-9;]*m', '', s): strip inxi ANSI colour codes.
def csiTail : List Char → Option (List Char)
  | [] => none
  | c :: r => if c == 'm' then some r else if c.isDigit || c == ';' then csiTail r else none

def stripAnsiFuel : Nat → List Char → List Char
  | _, [] => []
  | 0, l => l
  | fuel + 1, c :: rest =>
    if c == '\x1f' then stripAnsiFuel fuel rest
    else if c == '\x1b' then
      match rest with
      | '[' :: r2 =>
        match csiTail r2 with
        | some r3 => stripAnsiFuel fuel r3
        | none => c :: stripAnsiFuel fuel rest
      | _ => c :: stripAnsiFuel fuel rest
    else c :: stripAnsiFuel fuel rest

def stripAnsi (s : String) : String := strOf (stripAnsiFuel (strL s).length (strL s))

-- ======================================================================
-- External-world model: each tool invocation or file access the source
-- performs is a field of Env.  A ToolRes is either a completed process
-- (exit status plus captured stdout) or the exception subprocess.run
-- raised (missing binary, timeout, permission denial).
-- ======================================================================

inductive ToolErr where
  | fileNotFound
  | timeout
  | permission
deriving DecidableEq, Repr

structure ToolOut where
  returncode : Int
  stdout : String
deriving DecidableEq, Repr

inductive ToolRes where
  | ok (out : ToolOut)
  | err (e : ToolErr)
deriving DecidableEq, Repr

-- Python exceptions that can cross function boundaries in the modelled code.
inductive PyExc where
  | fileNotFound
  | timeout
  | permission
  | attributeError
deriving DecidableEq, Repr

def toolErrExc : ToolErr → PyExc
  | ToolErr.fileNotFound => PyExc.fileNotFound
  | ToolErr.timeout => PyExc.timeout
  | ToolErr.permission => PyExc.permission

-- Ordered string-keyed dictionary (Python dict semantics: assignment to an
-- existing key overwrites in place, a new key is appended at the end).
def dictGet {α : Type} (m : List (String × α)) (k : String) : Option α :=
  (m.find? (fun kv => kv.1 == k)).map (fun kv => kv.2)

def dictHas {α : Type} (m : List (String × α)) (k : String) : Bool :=
  (m.find? (fun kv => kv.1 == k)).isSome

def dictSet {α : Type} (m : List (String × α)) (k : String) (v : α) : List (String × α) :=
  if dictHas m k then m.map (fun kv => if kv.1 == k then (k, v) else kv)
  else m ++ [(k, v)]

-- lsblk -J output after json.loads, restricted to the keys the source
-- reads.  Option models an absent JSON key.
structure LsblkChild where
  ctype : Option String := none
  cname : Option String := none
  csize : Option String := none
  -- mountpoints is a JSON list whose entries may be null
  mountpoints : List (Option String) := []

structure LsblkDev where
  btype : Option String := none
  bname : Option String := none
  bmodel : Option String := none
  bsize : Option String := none
  children : List LsblkChild := []

structure LsblkTop where
  blockdevices : List LsblkDev := []

-- The environment one refresh pass runs against: the outcome of every
-- subprocess invocation, file read and path test the source can perform.
structure Env where
  -- subprocess.run(['hwinfo', '--short'], ...)
  hwinfo_short : ToolRes := ToolRes.err ToolErr.fileNotFound
  -- subprocess.run(['lsblk', '-J'], ...)
  lsblk_json : ToolRes := ToolRes.err ToolErr.fileNotFound
  -- json.loads(lsblk stdout); none models a JSONDecodeError (caught by the
  -- surrounding except in process_disk_hierarchy)
  lsblk_parse : Option LsblkTop := none
  -- subprocess.run(['lsblk', '-bno', 'SIZE,TYPE', path], ...)
  lsblk_size_type : String → ToolRes := fun _ => ToolRes.err ToolErr.fileNotFound
  -- subprocess.run(['lsblk', '-no', 'MOUNTPOINT', path], ...)
  lsblk_mount : String → ToolRes := fun _ => ToolRes.err ToolErr.fileNotFound
  -- subprocess.run(['lsblk', '-dno', 'MODEL', path], ...)
  lsblk_model : String → ToolRes := fun _ => ToolRes.err ToolErr.fileNotFound
  -- subprocess.run(['find', '/dev', '-name', 'video*', '-type', 'c'], ...)
  find_video : ToolRes := ToolRes.err ToolErr.fileNotFound
  -- subprocess.run(['find', '/dev', '-name', 'ttyUSB*', '-type', 'c'], ...)
  find_ttyusb : ToolRes := ToolRes.err ToolErr.fileNotFound
  -- subprocess.run(['lsusb'], ...)
  lsusb_out : ToolRes := ToolRes.err ToolErr.fileNotFound
  -- subprocess.run(['udevadm', 'info', '--query=property', '--name', path], ...)
  udevadm_props : String → ToolRes := fun _ => ToolRes.err ToolErr.fileNotFound
  -- subprocess.run(['inxi', '-G'], ...)
  inxi_g : ToolRes := ToolRes.err ToolErr.fileNotFound
  -- subprocess.run(['ethtool', '-i', iface], ...)
  ethtool_i : String → ToolRes := fun _ => ToolRes.err ToolErr.fileNotFound
  -- os.path.exists
  path_exists : String → Bool := fun _ => false
  -- open(path).read(); none models an OSError (caught at every call site)
  read_file : String → Option String := fun _ => none
  -- subprocess.run(['hdparm', '-I', path], ...)
  hdparm_i : String → ToolRes := fun _ => ToolRes.err ToolErr.fileNotFound
  -- subprocess.run(['smartctl', '-i', path], ...)
  smartctl_i : String → ToolRes := fun _ => ToolRes.err ToolErr.fileNotFound
  -- os.listdir('/dev/disk/by-id/'); none models an OSError
  list_by_id : Option (List String) := none
  -- os.path.realpath
  realpath : String → String := fun p => p
  -- subprocess.run(['fdisk', '-l', path], ...)
  fdisk_l : String → ToolRes := fun _ => ToolRes.err ToolErr.fileNotFound
  -- subprocess.run(['lshw', '-class', 'disk', '-short'], ...)
  lshw_disk : ToolRes := ToolRes.err ToolErr.fileNotFound
  -- subprocess.run(['dmesg', '|', 'grep', '-i', name], shell=True, ...)
  dmesg_grep : ToolRes := ToolRes.err ToolErr.fileNotFound
  -- subprocess.run(['lspci', '-v'], ...)
  lspci_v : ToolRes := ToolRes.err ToolErr.fileNotFound
  -- subprocess.run(['hwinfo', '--network'], ...)
  hwinfo_network : ToolRes := ToolRes.err ToolErr.fileNotFound

-- ======================================================================
-- Data model.  A hwinfo-derived device record is the Python dict built in
-- refresh_hwinfo_devices / process_disk_hierarchy / detect_webcams /
-- detect_com_ports; Option models an absent key.  (The literal 'MODEL',
-- 'VENDOR', 'SYSNAME', 'DEVPATH', 'CATEGORY' keys stored by
-- detect_com_ports and the 'device_path' key stored by detect_webcams are
-- never read back anywhere in the source and are therefore not modelled;
-- MockDevice.get maps only the ID_* keys and add_device_to_tree reads the
-- name via info['name'].)
-- ======================================================================

structure PartInfo where
  name : String
  originalCategory : Option String := none
  path : Option String := none
  enhancedName : Option String := none
  size : Option String := none
  mountpoint : Option String := none
deriving Repr

structure DeviceInfo where
  name : String
  originalCategory : Option String := none
  path : Option String := none
  enhancedName : Option String := none
  size : Option String := none
  mountpoint : Option String := none
  isDisk : Bool := false
  partitions : List PartInfo := []
  isComPort : Bool := false
  isWebcam : Bool := false
deriving Repr

-- A partition dict handed on its own to create_mock_device_from_hwinfo.
def partToInfo (p : PartInfo) : DeviceInfo :=
  { name := p.name, originalCategory := p.originalCategory, path := p.path,
    enhancedName := p.enhancedName, size := p.size, mountpoint := p.mountpoint }

def infoToPart (d : DeviceInfo) : PartInfo :=
  { name := d.name, originalCategory := d.originalCategory, path := d.path,
    enhancedName := d.enhancedName, size := d.size, mountpoint := d.mountpoint }

-- self.hwinfo_devices : category -> device list (a Python dict).
def HwMap : Type := List (String × List DeviceInfo)

-- GPU object built by create_gpu_device (type('SystemGPU', ...)).
structure GpuDevice where
  sys_name : String
  device_path : String
  vendor : String
  model : String
deriving DecidableEq, Repr

-- lsusb cache entry built by refresh_usb_device_info (that method is dead
-- code — nothing ever calls it — so the usb_devices_info attribute is
-- never created; the Option UsbMap below models the attribute, none
-- meaning "attribute missing", i.e. an access raises AttributeError).
structure UsbDeviceInfo where
  description : String
  is_keyboard : Bool
  is_mouse : Bool
deriving DecidableEq, Repr

def UsbMap : Type := List (String × UsbDeviceInfo)

-- A pyudev kernel device as consumed by should_show_device: subsystem,
-- sys_name and the udev property bag (Device.get returns None for a
-- missing key).
structure UdevDevice where
  subsystem : String
  sys_name : String
  props : List (String × String)

def UdevDevice.get (d : UdevDevice) (k : String) : Option String := dictGet d.props k

-- The per-device data stored on each tree item by add_device_to_tree
-- (item.setData(0, Qt.UserRole, device_data)); MODEL also doubles as the
-- item's display text.
structure Entry where
  MODEL : String
  VENDOR : String
  VENDOR_ENC : String
  SUBSYSTEM : String
  DEVPATH : String
  CATEGORY : String
  SYSNAME : String
  DEVTYPE : String
  ID_VENDOR_ID : String
  ID_MODEL_ID : String
deriving DecidableEq, Repr

-- Persistent MainWindow state read or written by refresh_devices.
structure AppState where
  cachedGpuDevices : List GpuDevice
  hwinfoDevices : List (String × List DeviceInfo)
  usbDevicesInfo : Option UsbMap

-- State right after MainWindow.__init__ initialises its attributes
-- (cached_gpu_devices = [], hwinfo_devices = {}; usb_devices_info is
-- never assigned anywhere, hence none).
def init_state : AppState := ⟨[], [], none⟩

-- ======================================================================
-- Module-level constants of the source.
-- ======================================================================

-- CATEGORY_MAP: subsystem -> (category name, icon name, emoji).
def CATEGORY_MAP : List (String × String × String × String) :=
  [("net", "Network adapters", "network-wired", "📡"),
   ("sound", "Sound, video and game controllers", "audio-card", "🔊"),
   ("video4linux", "Cameras", "camera-web", "📷"),
   ("input", "Keyboards", "input-keyboard", "⌨️"),
   ("hid", "Mice and other pointing devices", "input-mouse", "🖱️"),
   ("usb", "Universal Serial Bus controllers", "drive-removable-media", "🔌"),
   ("block", "Disk drives", "drive-harddisk", "💾"),
   ("graphics", "Display adapters", "video-display", "🖥️"),
   ("drm", "Display adapters", "video-display", "🖥️"),
   ("bluetooth", "Bluetooth", "bluetooth", "📶"),
   ("pci", "System devices", "computer-chip", "⚙️"),
   ("pnp", "System devices", "computer-chip", "⚙️"),
   ("printer", "Print queues", "printer", "🖨️"),
   ("scsi", "Storage controllers", "drive-harddisk-system", "💿"),
   ("tty", "Ports", "serial-port", "🔌"),
   ("webcams", "Imaging devices", "camera-web", "📷"),
   ("com_ports", "Ports (COM & LPT)", "serial-port", "🔌"),
   ("thermal", "System devices", "temperature", "🌡️"),
   ("firmware", "System devices", "computer-chip", "🔧"),
   ("acpi", "System devices", "computer-chip", "🔧"),
   ("dmi", "System devices", "computer-chip", "🔧"),
   ("leds", "System devices", "computer-chip", "🔧")]

-- CATEGORY_MAP.get(category, CATEGORY_MAP.get('pci', (...))) as used in
-- refresh_devices (the 'pci' key is present, so the inner default triple
-- is never taken).
def category_map_get (category : String) : String × String × String :=
  match (CATEGORY_MAP.find? (fun kv => kv.1 == category)).map (fun kv => kv.2) with
  | some t => t
  | none =>
    match (CATEGORY_MAP.find? (fun kv => kv.1 == "pci")).map (fun kv => kv.2) with
    | some t => t
    | none => ("System devices", "computer-chip", "⚙️")

def IMPORTANT_SUBSYSTEMS : List String :=
  ["net", "sound", "video4linux", "input", "hid", "usb", "block",
   "bluetooth", "pci", "printer", "scsi", "tty", "graphics", "drm",
   "thermal", "firmware", "acpi", "dmi"]

-- ======================================================================
-- refresh_hwinfo_devices: parsing of `hwinfo --short` output.
-- ======================================================================

-- The category_mapping dict literal inside refresh_hwinfo_devices.
def hwinfo_category_mapping : List (String × String) :=
  [("cpu", "pci"), ("keyboard", "input"), ("mouse", "hid"), ("monitor", "pci"),
   ("graphics card", "graphics"), ("sound", "sound"), ("storage", "block"),
   ("network", "net"), ("network interface", "net"), ("disk", "block"),
   ("partition", "block"), ("usb controller", "pci"), ("bridge", "pci"),
   ("memory", "pci"), ("unknown", "pci")]

-- Python truthiness of the current_category variable (None or '' falsy).
def ccTruthy : Option String → Bool
  | none => false
  | some s => s != ""

-- One step of the hwinfo --short parsing loop; state is (dict so far,
-- current_category, current_devices).
def parse_hwinfo_step (st : List (String × List DeviceInfo) × Option String × List DeviceInfo)
    (rawLine : String) : List (String × List DeviceInfo) × Option String × List DeviceInfo :=
  let (d, cc, cd) := st
  let line := pyStrip rawLine
  if pyEndsWith line ":" then
    -- flush the devices of the previous category
    let d := if ccTruthy cc && !cd.isEmpty then dictSet d (cc.getD "") cd else d
    let c0 := pyLower (takeStr line (strLen line - 1))
    let cc := (dictGet hwinfo_category_mapping c0).getD c0
    (d, some cc, [])
  else if line == "" || pyStartsWith line "--" || pyStartsWith line "  " then
    (d, cc, cd)
  else
    let di0 : DeviceInfo := { name := pyStrip line, originalCategory := cc }
    let di :=
      if containsSub " /dev/" line then
        let parts := pySplit1 line "  "
        if parts.length ≥ 2 then
          { di0 with name := pyStrip (parts.getD 1 ""), path := some (pyStrip (parts.getD 0 "")) }
        else di0
      else di0
    (d, cc, cd ++ [di])

def parse_hwinfo_short (stdout : String) : List (String × List DeviceInfo) :=
  let lines := pySplit (pyStrip stdout) "\n"
  let st := lines.foldl parse_hwinfo_step ([], none, [])
  let (d, cc, cd) := st
  if ccTruthy cc && !cd.isEmpty then dictSet d (cc.getD "") cd else d

-- ======================================================================
-- get_drive_model_name: ten fallback detection methods, each wrapped in
-- try/except so any tool failure moves on to the next method.
-- ======================================================================

-- Method 3/4/6-style line scans: first line containing `marker` whose
-- split-remainder is non-empty.
def firstSplitTail (lines : List String) (marker : String) : Option String :=
  lines.findSome? (fun line =>
    if containsSub marker line then
      let model := pyStrip ((pySplit line marker).getD 1 "")
      if model != "" then some model else none
    else none)

def drive_model_m1 (env : Env) (disk_name : String) : Option String :=
  let sys_name := (pySplit disk_name "/").getLastD ""
  let model_path := "/sys/block/" ++ sys_name ++ "/device/model"
  if env.path_exists model_path then
    match env.read_file model_path with
    | none => none   -- OSError, caught
    | some content =>
      let model := pyStrip content
      if model != "" && model != "Unknown" then some model else none
  else none

def drive_model_m2 (env : Env) (disk_path : String) : Option String :=
  match env.lsblk_model disk_path with
  | ToolRes.err _ => none
  | ToolRes.ok out =>
    if out.returncode == 0 then
      let model := pyStrip out.stdout
      if model != "" then some model else none
    else none

def drive_model_m3 (env : Env) (disk_path : String) : Option String :=
  match env.hdparm_i disk_path with
  | ToolRes.err _ => none
  | ToolRes.ok out =>
    if out.returncode == 0 then firstSplitTail (pySplit out.stdout "\n") "Model Number:"
    else none

def drive_model_m4 (env : Env) (disk_path : String) : Option String :=
  match env.smartctl_i disk_path with
  | ToolRes.err _ => none
  | ToolRes.ok out =>
    if out.returncode == 0 then
      (pySplit out.stdout "\n").findSome? (fun line =>
        if containsSub "Device Model:" line then
          let model := pyStrip ((pySplit line "Device Model:").getD 1 "")
          if model != "" then some model else none
        else if containsSub "Model:" line then
          let model := pyStrip ((pySplit line "Model:").getD 1 "")
          if model != "" then some model else none
        else none)
    else none

def drive_model_m5 (env : Env) (disk_name : String) : Option String :=
  let by_id_path := "/dev/disk/by-id/"
  if env.path_exists by_id_path then
    match env.list_by_id with
    | none => none   -- os.listdir raised, caught
    | some files =>
      files.findSome? (fun file =>
        if pyStartsWith file "ata-" &&
            containsSub disk_name (env.realpath (by_id_path ++ "/" ++ file)) then
          let model_part := dropStr file 4
          let model_part := if containsSub "_" model_part then (pySplit model_part "_").getD 0 "" else model_part
          if model_part != "" && strLen model_part > 3 then some (pyReplace model_part "-" " ")
          else none
        else none)
  else none

def drive_model_m6 (env : Env) (disk_path : String) : Option String :=
  match env.udevadm_props disk_path with
  | ToolRes.err _ => none
  | ToolRes.ok out =>
    if out.returncode == 0 then
      (pySplit out.stdout "\n").findSome? (fun line =>
        if containsSub "ID_MODEL=" line then
          let model := pyStrip ((pySplit line "ID_MODEL=").getD 1 "")
          if model != "" then some model else none
        else if containsSub "ID_MODEL_ENC=" line then
          let model := pyStrip ((pySplit line "ID_MODEL_ENC=").getD 1 "")
          if model != "" then some model else none
        else none)
    else none

def drive_model_m7 (env : Env) (disk_path disk_name : String) : Option String :=
  match env.lshw_disk with
  | ToolRes.err _ => none
  | ToolRes.ok out =>
    if out.returncode == 0 then
      (pySplit out.stdout "\n").findSome? (fun line =>
        if containsSub disk_path line || containsSub disk_name line then
          let parts := pyWords line
          if parts.length ≥ 3 then
            let model := pyJoin " " (parts.drop 2)
            if model != "" && model != disk_name && strLen model > 3 then some model else none
          else none
        else none)
    else none

-- Method 8 path loop; the try wraps the whole loop, so a failing read
-- aborts the remaining paths (none).
def drive_model_m8_go (env : Env) : List String → Option String
  | [] => none
  | path :: rest =>
    if env.path_exists path then
      match env.read_file path with
      | none => none   -- read raised, whole method caught
      | some raw =>
        let content := pyStrip raw
        if content != "" && content != "0" && strLen content > 2 then some content
        else drive_model_m8_go env rest
    else drive_model_m8_go env rest

def drive_model_m8 (env : Env) (disk_name : String) : Option String :=
  let sys_name := (pySplit disk_name "/").getLastD ""
  drive_model_m8_go env
    ["/sys/block/" ++ sys_name ++ "/device/model",
     "/sys/block/" ++ sys_name ++ "/device/vendor",
     "/sys/block/" ++ sys_name ++ "/queue/rotational"]

-- Method 9 line loop; `model_part.split(disk_path)[1]` raises IndexError
-- when disk_path does not occur in model_part, aborting the whole method
-- (also none).
def fdisk_scan (disk_path : String) : List String → Option String
  | [] => none
  | line :: rest =>
    if containsSub "Disk" line && containsSub disk_path line then
      let parts := pySplit line ","
      if parts.length > 1 then
        let model_part := pyStrip (pyReplace (parts.getD 0 "") "Disk" "")
        if model_part != "" && strLen model_part > strLen disk_path then
          let segs := pySplit model_part disk_path
          if segs.length ≥ 2 then some (pyStrip (segs.getD 1 ""))
          else none   -- IndexError, caught: method over
        else fdisk_scan disk_path rest
      else fdisk_scan disk_path rest
    else fdisk_scan disk_path rest

def drive_model_m9 (env : Env) (disk_path : String) : Option String :=
  match env.fdisk_l disk_path with
  | ToolRes.err _ => none
  | ToolRes.ok out =>
    if out.returncode == 0 then fdisk_scan disk_path (pySplit out.stdout "\n") else none

def drive_model_m10 (env : Env) : Option String :=
  match env.dmesg_grep with
  | ToolRes.err _ => none
  | ToolRes.ok out =>
    if out.returncode == 0 then
      (pySplit out.stdout "\n").findSome? (fun line =>
        if ["model", "vendor", "samsung", "hitachi", "western", "seagate",
            "toshiba"].any (fun kw => containsSub kw (pyLower line)) then
          let words := pyWords line
          (List.range words.length).findSome? (fun i =>
            let word := words.getD i ""
            if ["model:", "vendor:", "model"].contains (pyLower word) then
              if i + 1 < words.length then
                let potential := words.getD (i + 1) ""
                if strLen potential > 3 then some potential else none
              else none
            else none)
        else none)
    else none

def get_drive_model_name (env : Env) (disk_path disk_name : String) : String :=
  match drive_model_m1 env disk_name with
  | some r => r
  | none =>
  match drive_model_m2 env disk_path with
  | some r => r
  | none =>
  match drive_model_m3 env disk_path with
  | some r => r
  | none =>
  match drive_model_m4 env disk_path with
  | some r => r
  | none =>
  match drive_model_m5 env disk_name with
  | some r => r
  | none =>
  match drive_model_m6 env disk_path with
  | some r => r
  | none =>
  match drive_model_m7 env disk_path disk_name with
  | some r => r
  | none =>
  match drive_model_m8 env disk_name with
  | some r => r
  | none =>
  match drive_model_m9 env disk_path with
  | some r => r
  | none =>
  match drive_model_m10 env with
  | some r => r
  | none => disk_name ++ " Drive"

-- Renders num/den rounded to one decimal digit, like CPython's
-- f"{num / den:.1f}" (exact-rational half-even rounding; the binary
-- float's double rounding can differ on borderline values, which no claim
-- depends on).
def formatOneDecimal (num den : Int) : String :=
  let q := (10 * num).ediv den
  let r := (10 * num).emod den
  let t := if 2 * r < den then q else if 2 * r > den then q + 1
           else if q.emod 2 == 0 then q else q + 1
  let sign := if t < 0 then "-" else ""
  let a := t.natAbs
  sign ++ toString (a / 10) ++ "." ++ toString (a % 10)

-- ======================================================================
-- process_disk_hierarchy and its helpers.
-- ======================================================================

-- Inner per-partition block of the hwinfo fallback path: try lsblk SIZE
-- and MOUNTPOINT queries; any exception sets enhanced_name to the bare
-- name; a nonzero exit leaves the dict untouched.
def enhance_partition_fallback (env : Env) (p : DeviceInfo) : PartInfo :=
  let base := infoToPart p
  let part_path := p.path.getD ""
  match env.lsblk_size_type part_path with
  | ToolRes.err _ => { base with enhancedName := some p.name }
  | ToolRes.ok out =>
    if out.returncode == 0 then
      let size_info := (pySplit (pyStrip out.stdout) "\n").getD 0 ""
      match (pyWords size_info).head? with
      | none => { base with enhancedName := some p.name }   -- IndexError, caught
      | some w =>
        match pyInt w with
        | none => { base with enhancedName := some p.name }  -- ValueError, caught
        | some size_bytes =>
          match env.lsblk_mount part_path with
          | ToolRes.err _ => { base with enhancedName := some p.name }
          | ToolRes.ok mout =>
            let mount_point := pyOr (pyStrip mout.stdout) "Not mounted"
            let part_name := p.name ++ " (" ++ formatOneDecimal size_bytes (1024 ^ 3) ++ " GB) - " ++ mount_point
            { base with enhancedName := some part_name }
    else base

def make_lsblk_partition (child : LsblkChild) : PartInfo :=
  let part_size := child.csize.getD "Unknown"
  let part_name := child.cname.getD "Unknown"
  let mount_point :=
    match child.mountpoints.head? with
    | some (some mp) => if mp == "" then "Not mounted" else mp
    | _ => "Not mounted"
  { name := part_name, path := some ("/dev/" ++ part_name),
    enhancedName := some (part_name ++ " (" ++ part_size ++ ") - " ++ mount_point),
    size := some part_size, mountpoint := some mount_point,
    originalCategory := some "block" }

def make_lsblk_disk (env : Env) (disks : List DeviceInfo) (disk : LsblkDev) : DeviceInfo :=
  -- the source also computes disk_name = disk.get('model', 'Unknown
  -- Drive') but never uses it afterwards
  let disk_size := disk.bsize.getD "Unknown"
  let dname := disk.bname.getD ""
  let disk_path := "/dev/" ++ dname
  let display0 := get_drive_model_name env disk_path dname
  let hwinfo_name := (disks.find? (fun hw => hw.path == some disk_path)).map (fun hw => hw.name)
  let display_name :=
    match hwinfo_name with
    | some n => pyOr n display0
    | none => display0
  let disk_partitions := (disk.children.filter (fun c => c.ctype == some "part")).map make_lsblk_partition
  { name := display_name, path := some disk_path,
    enhancedName := some (display_name ++ " (" ++ disk_size ++ ") - " ++
      toString disk_partitions.length ++ " partitions"),
    size := some disk_size, isDisk := true, partitions := disk_partitions,
    originalCategory := some "block" }

def process_disk_hierarchy (env : Env) (m : List (String × List DeviceInfo)) :
    List (String × List DeviceInfo) :=
  let disks := (dictGet m "block").getD []
  -- try: lsblk -J; json.loads; build hierarchical disks; an early return
  -- happens only when that list is non-empty
  let viaLsblk : Option (List DeviceInfo) :=
    match env.lsblk_json with
    | ToolRes.err _ => none
    | ToolRes.ok out =>
      if out.returncode == 0 then
        match env.lsblk_parse with
        | none => none   -- json.loads raised, caught
        | some data =>
          let hd := (data.blockdevices.filter (fun d =>
              d.btype == some "disk" && pyStartsWith (d.bname.getD "") "sd")).map
            (make_lsblk_disk env disks)
          if hd.isEmpty then none else some hd
      else none
  match viaLsblk with
  | some hd => dictSet m "block" hd
  | none =>
    -- fallback to the original hwinfo parsing
    let disk_devices := disks.filter (fun d =>
      pyStartsWith (d.path.getD "") "/dev/sd" && !pyEndsWith (d.path.getD "") "1")
    let partition_devices := disks.filter (fun d =>
      pyStartsWith (d.path.getD "") "/dev/sd" && strEndsWithDigit (d.path.getD ""))
    let hierarchical := disk_devices.map (fun disk =>
      let disk_path := disk.path.getD ""
      let disk_name := disk.name
      let disk_partitions := (partition_devices.filter (fun p =>
          pyStartsWith (p.path.getD "") disk_path)).map (enhance_partition_fallback env)
      { disk with
          enhancedName := some (disk_name ++ " (" ++ toString disk_partitions.length ++ " partitions)"),
          isDisk := true, partitions := disk_partitions })
    if hierarchical.isEmpty then m else dictSet m "block" hierarchical

-- ======================================================================
-- filter_network_devices.
-- ======================================================================

def virtual_patterns : List String :=
  ["lo", "virbr", "docker", "br-", "veth", "tun", "tap", "tailscale",
   "wireguard", "wg", "pi", "utun", "awdl", "llw", "anpi", "ipsec",
   "gif", "stf", "ppp", "sl", "plip", "dummy", "bond", "team", "vlan"]

-- The should_hide pattern loop over name and path.
def net_should_hide (d : DeviceInfo) : Bool :=
  let device_name := pyLower d.name
  let device_path := pyLower (d.path.getD "")
  virtual_patterns.any (fun p => containsSub p device_name || containsSub p device_path)

-- The wireless/ethernet keep check applied to non-hidden devices.
def net_keep (d : DeviceInfo) : Bool :=
  let device_name := pyLower d.name
  pyStartsWith device_name "wl" || pyStartsWith device_name "en" ||
  pyStartsWith device_name "eth" || pyStartsWith device_name "wlan" ||
  containsSub "wireless" (pyLower device_name) ||
  containsSub "ethernet" (pyLower device_name) ||
  containsSub "wifi" (pyLower device_name)

def filter_network_list : List DeviceInfo → List DeviceInfo
  | [] => []
  | d :: rest =>
    if net_should_hide d then filter_network_list rest
    else if net_keep d then d :: filter_network_list rest
    else filter_network_list rest

def filter_network_devices (m : List (String × List DeviceInfo)) :
    List (String × List DeviceInfo) :=
  if !dictHas m "net" then m
  else dictSet m "net" (filter_network_list ((dictGet m "net").getD []))

-- ======================================================================
-- detect_multimedia_devices: webcams and USB serial COM ports.
-- ======================================================================

def get_webcam_name_from_lsusb (env : Env) : Option String :=
  match env.lsusb_out with
  | ToolRes.err _ => none
  | ToolRes.ok out =>
    if out.returncode == 0 then
      (pySplit out.stdout "\n").findSome? (fun line =>
        if ["camera", "webcam", "cam", "video"].any (fun kw => containsSub kw (pyLower line)) then
          if containsSub ":" line then
            let parts := pySplit line ":"
            if parts.length ≥ 2 then
              let desc := pyStrip (pyJoin ":" (parts.drop 2))
              some (pyReplace (pyReplace desc "Webcam " "") "Camera " "")
            else none
          else none
        else none)
    else none

def detect_webcams (env : Env) : List DeviceInfo :=
  match env.find_video with
  | ToolRes.err _ => []
  | ToolRes.ok out =>
    if out.returncode == 0 then
      ((pySplit (pyStrip out.stdout) "\n").filter (fun p => p != "" && env.path_exists p)).map
        (fun video_path =>
          let device_name := pyBasename video_path
          let display_name :=
            match get_webcam_name_from_lsusb env with
            | some n => if n == "" then "Webcam (" ++ device_name ++ ")"
                        else n ++ " (" ++ device_name ++ ")"
            | none => "Webcam (" ++ device_name ++ ")"
          { name := display_name, path := some video_path, enhancedName := some display_name,
            originalCategory := some "webcams", isWebcam := true })
    else []

def get_usb_serial_info (env : Env) (device_path : String) : String :=
  match env.udevadm_props device_path with
  | ToolRes.err _ => ""
  | ToolRes.ok out =>
    if out.returncode == 0 then
      let vm := (pySplit out.stdout "\n").foldl (fun (acc : String × String) line =>
        if containsSub "ID_VENDOR=" line then
          (pyReplace ((pySplit line "=").getD 1 "") "_" " ", acc.2)
        else if containsSub "ID_MODEL=" line then
          (acc.1, pyReplace ((pySplit line "=").getD 1 "") "_" " ")
        else acc) ("", "")
      if vm.1 != "" && vm.2 != "" then "- " ++ vm.1 ++ " " ++ vm.2
      else if vm.1 != "" then "- " ++ vm.1
      else if vm.2 != "" then "- " ++ vm.2
      else ""
    else ""

def detect_com_ports (env : Env) : List DeviceInfo :=
  -- Method 1 (/dev/ttyS* legacy ports) is a deliberate `pass` in the
  -- source; only the /dev/ttyUSB* scan contributes entries.
  match env.find_ttyusb with
  | ToolRes.err _ => []
  | ToolRes.ok out =>
    if out.returncode == 0 then
      ((pySplit (pyStrip out.stdout) "\n").filter (fun p => p != "" && env.path_exists p)).map
        (fun serial_path =>
          let device_name := pyBasename serial_path
          let port_info := get_usb_serial_info env serial_path
          let display_name :=
            if port_info != "" && pyStrip port_info != "" then device_name ++ " " ++ port_info
            else device_name
          { name := display_name, path := some serial_path, enhancedName := some display_name,
            originalCategory := some "com_ports", isComPort := true })
    else []

def detect_multimedia_devices (env : Env) (m : List (String × List DeviceInfo)) :
    List (String × List DeviceInfo) :=
  let webcams := detect_webcams env
  let m := if !webcams.isEmpty then
      dictSet m "webcams" (((dictGet m "webcams").getD []) ++ webcams)
    else m
  let com_ports := detect_com_ports env
  if !com_ports.isEmpty then
    dictSet m "com_ports" (((dictGet m "com_ports").getD []) ++ com_ports)
  else m

-- ======================================================================
-- refresh_hwinfo_devices: run hwinfo --short and post-process.  On a
-- successful run the dictionary is rebuilt from scratch; on a nonzero
-- exit status the body of the `if` is skipped and the PREVIOUS dictionary
-- is kept; on an exception the except clause resets it to {}.  The three
-- post-processing passes run in every case.
-- ======================================================================

def hwinfo_raw (env : Env) (m : List (String × List DeviceInfo)) :
    List (String × List DeviceInfo) :=
  match env.hwinfo_short with
  | ToolRes.ok out => if out.returncode == 0 then parse_hwinfo_short out.stdout else m
  | ToolRes.err _ => []

def refresh_hwinfo_devices (env : Env) (m : List (String × List DeviceInfo)) :
    List (String × List DeviceInfo) :=
  detect_multimedia_devices env (filter_network_devices (process_disk_hierarchy env (hwinfo_raw env m)))

-- ======================================================================
-- GPU detection: detect_gpus -> detect_gpus_inxi (the only method
-- invoked) -> per-vendor model extraction -> filter_real_gpus, with the
-- cached_gpu_devices fallback.
-- ======================================================================

def extract_intel_gpu_model (line : String) : String :=
  if containsSub "Intel" line then
    let parts := pySplit line "Intel"
    if parts.length > 1 then
      let gpu_part := parts.getD 1 ""
      let model :=
        if containsSub "driver" gpu_part then pyStrip ((pySplit gpu_part "driver").getD 0 "")
        else pyStrip gpu_part
      pyStrip (pyReplace (pyReplace model "Corporation" "") "Inc." "")
    else "Intel Graphics"
  else "Intel Graphics"

def extract_amd_gpu_model (line : String) : String :=
  if containsSub "Ellesmere" line then "Radeon RX 470/480/570/580/590"
  else
    let radeonBranch : Option String :=
      if containsSub "Radeon" line then
        match pyFindOpt line "[", pyFindOpt line "]" with
        | some bracket_start, some bracket_end =>
          let inside_brackets := sliceStr line (bracket_start + 1) bracket_end
          if containsSub "AMD" inside_brackets then
            let model_part := pyStrip (dropStr line (bracket_end + 1))
            let model_part := pyStrip ((pySplit model_part "driver").getD 0 "")
            some (pyStrip (pyReplace model_part "Corporation" ""))
          else none
        | _, _ => none
      else none
    match radeonBranch with
    | some r => r
    | none =>
      if containsSub "AMD" line && containsSub "driver" line then
        match pyFindOpt line "AMD" with
        | some amd_start =>
          let after_amd := dropStr line amd_start
          let model_part := pyStrip ((pySplit after_amd "driver").getD 0 "")
          pyStrip (pyReplace (pyReplace model_part "Corporation" "") "Inc." "")
        | none => "AMD Graphics"
      else if containsSub "ATI" line && containsSub "driver" line then
        match pyFindOpt line "ATI" with
        | some ati_start =>
          let after_ati := dropStr line ati_start
          let model_part := pyStrip ((pySplit after_ati "driver").getD 0 "")
          pyStrip (pyReplace (pyReplace model_part "Technologies" "") "Inc." "")
        | none => "AMD Graphics"
      else "AMD Graphics"

def extract_nvidia_gpu_model (line : String) : String :=
  if containsSub "NVIDIA" line || containsSub "Nvidia" line then
    let nvidia_start :=
      match pyFindOpt line "NVIDIA" with
      | some i => some i
      | none => pyFindOpt line "Nvidia"
    match nvidia_start with
    | some i =>
      let gpu_part := dropStr line i
      let model :=
        if containsSub "driver" gpu_part then pyStrip ((pySplit gpu_part "driver").getD 0 "")
        else pyStrip gpu_part
      pyStrip (pyReplace (pyReplace model "Corporation" "") "Inc." "")
    | none => "NVIDIA Graphics"
  else "NVIDIA Graphics"

-- create_gpu_device (the sys_prefix argument of the source is never used
-- by its body and is omitted).
def create_gpu_device (vendor model : String) : GpuDevice :=
  let clean_model := takeStr (pyReplace (pyReplace (pyReplace model " " "_") "-" "_") "/" "_") 20
  { sys_name := "gpu_" ++ pyLower vendor ++ "_" ++ clean_model,
    device_path := "/sys/class/drm/" ++ pyLower vendor,
    vendor := vendor, model := model }

-- current_gpu dict of the inxi parsing loop: None models the empty dict.
structure InxiCur where
  vendor : String
  model : String
  has_driver : Bool

-- Emit the pending GPU if it has vendor, model and a confirmed driver
-- (vendor and model are always set together, so the Option suffices).
def inxi_flush (gpus : List GpuDevice) : Option InxiCur → List GpuDevice
  | some c => if c.has_driver then gpus ++ [create_gpu_device c.vendor c.model] else gpus
  | none => gpus

def inxi_step (st : List GpuDevice × Option InxiCur) (rawLine : String) :
    List GpuDevice × Option InxiCur :=
  let (gpus, cur) := st
  let line := pyStrip rawLine
  if containsSub "Device-" line then
    let gpus := inxi_flush gpus cur
    if containsSub "Webcam" line || containsSub "Camera" line || containsSub "type USB" line then
      (gpus, none)
    else if containsSub "Intel" line then
      (gpus, some ⟨"Intel", extract_intel_gpu_model line, false⟩)
    else if containsSub "AMD" line || containsSub "Radeon" line || containsSub "Ellesmere" line then
      (gpus, some ⟨"AMD", extract_amd_gpu_model line, false⟩)
    else if containsSub "NVIDIA" line then
      (gpus, some ⟨"NVIDIA", extract_nvidia_gpu_model line, false⟩)
    else if containsSub "Nvidia" line then
      (gpus, some ⟨"NVIDIA", extract_nvidia_gpu_model line, false⟩)
    else (gpus, none)
  else if pyStartsWith (pyStrip line) "driver:" then
    match cur with
    | some c => (gpus, some { c with has_driver := true })
    | none => (gpus, none)   -- `and current_gpu` is falsy for the empty dict
  else (gpus, cur)

def parse_inxi_gpus (stdout : String) : List GpuDevice :=
  let clean_output := stripAnsi stdout
  let st := (pySplit clean_output "\n").foldl inxi_step ([], none)
  inxi_flush st.1 st.2

-- detect_gpus_inxi: the except clause names only TimeoutExpired,
-- CalledProcessError and FileNotFoundError — a PermissionError raised by
-- subprocess.run is NOT caught and propagates to the caller.
def detect_gpus_inxi (env : Env) : Except PyExc (List GpuDevice) :=
  match env.inxi_g with
  | ToolRes.err ToolErr.timeout => Except.ok []
  | ToolRes.err ToolErr.fileNotFound => Except.ok []
  | ToolRes.err ToolErr.permission => Except.error PyExc.permission
  | ToolRes.ok out => Except.ok (if out.returncode == 0 then parse_inxi_gpus out.stdout else [])

-- f"{vendor}_{model}".replace(' ', '_').upper() computed from the
-- upper-cased vendor/model locals of filter_real_gpus.
def gpu_dedup_id (g : GpuDevice) : String :=
  pyUpper (pyReplace (pyUpper g.vendor ++ "_" ++ pyUpper g.model) " " "_")

def filter_real_gpus_aux : List GpuDevice → List String → List GpuDevice
  | [], _ => []
  | g :: rest, seen_models =>
    let vendor := pyUpper g.vendor
    let model := pyUpper g.model
    if containsSub "WEBCAM" model || containsSub "CAMERA" model || containsSub "USB" model then
      filter_real_gpus_aux rest seen_models
    else if containsSub "UNKNOWN" vendor || strLen vendor < 2 then
      filter_real_gpus_aux rest seen_models
    else if containsSub "UNKNOWN" model || strLen model < 5 then
      filter_real_gpus_aux rest seen_models
    else
      -- gpu_id = gpu_dedup_id g
      if seen_models.contains (gpu_dedup_id g) then filter_real_gpus_aux rest seen_models
      else g :: filter_real_gpus_aux rest (gpu_dedup_id g :: seen_models)

def filter_real_gpus (gpu_devices : List GpuDevice) : List GpuDevice :=
  filter_real_gpus_aux gpu_devices []

-- detect_gpus: run inxi detection, filter, and fall back to the cached
-- GPU list when this pass found none.  Returns (gpu_devices, new cache).
def detect_gpus (env : Env) (cache : List GpuDevice) :
    Except PyExc (List GpuDevice × List GpuDevice) :=
  match detect_gpus_inxi env with
  | Except.error e => Except.error e
  | Except.ok l =>
    let found := filter_real_gpus l
    if !found.isEmpty then Except.ok (found, found)
    else Except.ok (cache, cache)

-- ======================================================================
-- Network device naming (get_network_device_name) and name cleanup.
-- ======================================================================

-- Method 1 line loop: track the last driver seen, return at the first
-- bus-info line once both driver and bus are non-empty.
def ethtool_scan (iface : String) : List String → String → Option String
  | [], _ => none
  | line :: rest, driver =>
    if pyStartsWith line "driver:" then
      ethtool_scan iface rest (pyStrip ((pySplit line "driver:").getD 1 ""))
    else if pyStartsWith line "bus-info:" then
      let bus_info := pyStrip ((pySplit line "bus-info:").getD 1 "")
      if driver != "" && bus_info != "" then
        some (iface ++ " (" ++ driver ++ " - " ++ bus_info ++ ")")
      else ethtool_scan iface rest driver
    else ethtool_scan iface rest driver

def net_name_ethtool (env : Env) (iface : String) : Option String :=
  match env.ethtool_i iface with
  | ToolRes.err _ => none
  | ToolRes.ok out =>
    if out.returncode == 0 then ethtool_scan iface (pySplit out.stdout "\n") "" else none

def net_name_sysfs (env : Env) (iface : String) : Option String :=
  let net_path := "/sys/class/net/" ++ iface
  if env.path_exists net_path then
    let uevent_path := net_path ++ "/device/uevent"
    if env.path_exists uevent_path then
      match env.read_file uevent_path with
      | none => none   -- read raised, caught
      | some content =>
        let acc := (pySplit content "\n").foldl
          (fun (acc : String × String × String) line =>
            if pyStartsWith line "DRIVER=" then
              ((pySplit line "=").getD 1 "", acc.2.1, acc.2.2)
            else if pyStartsWith line "ID_VENDOR_FROM_DATABASE=" then
              (acc.1, pyReplace ((pySplit line "=").getD 1 "") "_" " ", acc.2.2)
            else if pyStartsWith line "ID_MODEL_FROM_DATABASE=" then
              (acc.1, acc.2.1, pyReplace ((pySplit line "=").getD 1 "") "_" " ")
            else acc) ("", "", "")
        let driver := acc.1
        let vendor := acc.2.1
        let device_name := acc.2.2
        if device_name != "" && vendor != "" then some (device_name ++ " (" ++ iface ++ ")")
        else if driver != "" then some (iface ++ " (" ++ driver ++ ")")
        else none
    else none
  else none

def lspci_brands : List String :=
  ["Intel", "Realtek", "Broadcom", "Qualcomm", "Atheros", "Marvell"]

def net_name_lspci (env : Env) (iface : String) : Option String :=
  match env.lspci_v with
  | ToolRes.err _ => none
  | ToolRes.ok out =>
    if out.returncode == 0 then
      let lines := pySplit out.stdout "\n"
      (List.range lines.length).findSome? (fun i =>
        let line := lines.getD i ""
        if containsSub iface (pyLower line) || containsSub "ethernet" (pyLower line) then
          -- for j in range(max(0, i-3), min(len(lines), i+4))
          (List.range' (i - 3) (min lines.length (i + 4) - (i - 3))).findSome? (fun j =>
            let lj := lines.getD j ""
            if pyStrip lj != "" && lspci_brands.any (fun b => containsSub b lj) then
              if containsSub ":" lj then
                let device_name := pyStrip ((pySplit lj ":").getLastD "")
                if device_name != "" && strLen device_name > 5 then
                  some (device_name ++ " (" ++ iface ++ ")")
                else none
              else none
            else none)
        else none)
    else none

-- Method 4: the device_name variable persists across outer iterations.
def hwinfo_net_scan (lines : List String) (iface : String) :
    List Nat → String → Option String
  | [], _ => none
  | i :: restIdx, device_name =>
    let line := lines.getD i ""
    if containsSub iface line then
      -- for j in range(max(0, i-10), i), breaking at the first match
      let dn := ((List.range' (i - 10) (i - (i - 10))).findSome? (fun j =>
          let lj := lines.getD j ""
          if containsSub "Model:" lj then
            some (pyStrip ((pySplit lj "Model:").getD 1 ""))
          else if containsSub "Device:" lj && containsSub "Intel" lj then
            some (pyStrip ((pySplit lj "Device:").getD 1 ""))
          else none)).getD device_name
      if dn != "" then some (dn ++ " (" ++ iface ++ ")")
      else hwinfo_net_scan lines iface restIdx dn
    else hwinfo_net_scan lines iface restIdx device_name

def net_name_hwinfo (env : Env) (iface : String) : Option String :=
  match env.hwinfo_network with
  | ToolRes.err _ => none
  | ToolRes.ok out =>
    if out.returncode == 0 then
      let lines := pySplit out.stdout "\n"
      hwinfo_net_scan lines iface (List.range lines.length) ""
    else none

-- get_network_device_name: four detection methods, falling back to the
-- bare interface name.
def get_network_device_name (env : Env) (interface_name : String) : String :=
  match net_name_ethtool env interface_name with
  | some r => r
  | none =>
  match net_name_sysfs env interface_name with
  | some r => r
  | none =>
  match net_name_lspci env interface_name with
  | some r => r
  | none =>
  match net_name_hwinfo env interface_name with
  | some r => r
  | none => interface_name

def network_name_suffixes : List String :=
  ["network interface", "network adapter", "ethernet network interface", "wireless adapter"]

def clean_network_device_name (device_name : String) : String :=
  let cleaned := pyStrip device_name
  let earlyInterface : Option String :=
    if containsSub "network interface" (pyLower cleaned) ||
        containsSub "network adapter" (pyLower cleaned) then
      (pyWords cleaned).head?
    else none
  match earlyInterface with
  | some w => w
  | none =>
    let cleaned := network_name_suffixes.foldl (fun c suffixStr =>
      if pyEndsWith (pyLower c) (pyLower suffixStr) then
        pyStrip (takeStr c (strLen c - strLen suffixStr))
      else c) cleaned
    pyStrip (squeezeSpaces cleaned)

-- ======================================================================
-- Device objects handed to add_device_to_tree: the MockDevice built from
-- a hwinfo dict, or a SystemGPU object.
-- ======================================================================

inductive Dev where
  | mock (category : String) (info : DeviceInfo)
  | gpu (g : GpuDevice)

def Dev.subsystem : Dev → String
  | Dev.mock category _ => category
  | Dev.gpu _ => "graphics"

def Dev.sys_name : Dev → String
  | Dev.mock category info =>
    match info.path with
    | some p => p
    | none => category ++ "_" ++ toString (strLen info.name)
  | Dev.gpu g => g.sys_name

def Dev.device_path : Dev → String
  | Dev.mock category info =>
    match info.path with
    | some p => p
    | none => "/sys/class/" ++ category
  | Dev.gpu g => g.device_path

-- ID_VENDOR_FROM_DATABASE heuristic of MockDevice.get.
def mock_vendor_heuristic (name : String) : String :=
  match ["Intel", "AMD", "NVIDIA", "ATI", "Logitech", "Dell", "Samsung",
         "Hitachi"].find? (fun v => containsSub (pyLower v) (pyLower name)) with
  | some v => v
  | none => "Unknown"

-- MockDevice.get / SystemGPU.get with an explicit default.
def Dev.pget (d : Dev) (key default : String) : String :=
  match d with
  | Dev.mock _ info =>
    let nm := match info.enhancedName with
      | some e => e
      | none => info.name
    if key == "ID_MODEL_FROM_DATABASE" then nm
    else if key == "ID_MODEL" then nm
    else if key == "ID_VENDOR_FROM_DATABASE" then mock_vendor_heuristic nm
    else if key == "ID_VENDOR" then mock_vendor_heuristic nm
    else default
  | Dev.gpu g =>
    if key == "VENDOR" then g.vendor
    else if key == "MODEL" then g.model
    else if key == "DEVPATH" then g.device_path
    else if key == "SUBSYSTEM" then "graphics"
    else if key == "CATEGORY" then "Display adapters"
    else default

def Dev.is_com_port : Dev → Bool
  | Dev.mock _ info => info.isComPort
  | Dev.gpu _ => false

def Dev.com_name : Dev → String
  | Dev.mock _ info => info.name
  | Dev.gpu g => g.sys_name

-- get_usb_device_key_from_hid_id: "0003:046D:C077.0001" -> "046d:c077".
def get_usb_device_key_from_hid_id (hid_id : String) : Option String :=
  let parts := pySplit hid_id ":"
  if parts.length ≥ 3 then
    let vendor_hex := pyLower (parts.getD 1 "")
    let product_hex := pyLower ((pySplit (parts.getD 2 "") ".").getD 0 "")
    some (vendor_hex ++ ":" ++ product_hex)
  else none

-- get_usb_hid_device_name.  The usb_devices_info attribute is never
-- created by the program, so the lookup raises AttributeError, which the
-- bare except turns into the "USB Input Device" fallback.
def get_usb_hid_device_name (usb : Option UsbMap) (device_id : String) : String :=
  let parts := pySplit device_id ":"
  if parts.length ≥ 3 then
    let vendor_hex := pyLower (parts.getD 1 "")
    let product_hex := pyLower ((pySplit (parts.getD 2 "") ".").getD 0 "")
    let device_key := vendor_hex ++ ":" ++ product_hex
    match usb with
    | none => "USB Input Device"   -- AttributeError, caught by the bare except
    | some m =>
      match dictGet m device_key with
      | some info => info.description
      | none => "USB Input Device (" ++ vendor_hex ++ ":" ++ product_hex ++ ")"
  else "USB Input Device"

-- ======================================================================
-- add_device_to_tree: compute the display name and the per-item
-- device_data record (icons and tree parenting are presentation only).
-- ======================================================================

def mk_entry (device : Dev) (category display_name vendor : String) : Entry :=
  { MODEL := display_name,
    VENDOR := vendor,
    VENDOR_ENC := device.pget "ID_VENDOR_ENC" vendor,
    SUBSYSTEM := device.subsystem,
    DEVPATH := device.device_path,
    CATEGORY := category,
    SYSNAME := device.sys_name,
    DEVTYPE := device.pget "DEVTYPE" "",
    ID_VENDOR_ID := device.pget "ID_VENDOR_ID" "",
    ID_MODEL_ID := device.pget "ID_MODEL_ID" "" }

def add_device_to_tree (env : Env) (usb : Option UsbMap) (device : Dev)
    (category : String) : Entry :=
  if device.is_com_port then
    -- vendor and model stay at their '' initialisation
    mk_entry device category device.com_name ""
  else
    let model := pyOr (device.pget "ID_MODEL_FROM_DATABASE" "")
      (pyOr (device.pget "ID_MODEL" "") device.sys_name)
    let vendor := pyOr (device.pget "ID_VENDOR_FROM_DATABASE" "")
      (pyOr (device.pget "ID_VENDOR" "") "")
    if device.subsystem == "net" then
      mk_entry device category (get_network_device_name env device.sys_name) vendor
    else if device.subsystem == "hid" && containsSub ":" device.sys_name then
      mk_entry device category (get_usb_hid_device_name usb device.sys_name) vendor
    else
      let model :=
        if model != "" then
          if category == "Network adapters" then clean_network_device_name model
          else pyTitle (pyReplace model "_" " ")
        else model
      let vendor := if vendor != "" then pyTitle (pyReplace vendor "_" " ") else vendor
      let display_name :=
        if vendor != "" && model != "" && !pyStartsWith model vendor then
          vendor ++ " " ++ model
        else model
      mk_entry device category display_name vendor

-- ======================================================================
-- refresh_devices: iterate the hwinfo dictionary in insertion order,
-- create a category node per mapped category name, add one tree entry per
-- device (plus one per partition of a disk), then append the separately
-- detected GPU entries only when no "Display adapters" category exists
-- yet.  Expanded/collapsed state and icons are presentation only.
-- ======================================================================

def build_category_devices (env : Env) (usb : Option UsbMap) (category : String)
    (cat_name : String) (devices : List DeviceInfo) : List Entry :=
  devices.foldl (fun es di =>
    let device := Dev.mock category di
    let e := add_device_to_tree env usb device cat_name
    let parts :=
      if di.isDisk && !di.partitions.isEmpty then
        di.partitions.map (fun p =>
          add_device_to_tree env usb (Dev.mock category (partToInfo p)) cat_name)
      else []
    es ++ [e] ++ parts) []

def build_from_hwinfo (env : Env) (usb : Option UsbMap)
    (m : List (String × List DeviceInfo)) : List Entry × List String :=
  m.foldl (fun (acc : List Entry × List String) kv =>
    let category := kv.1
    let devices := kv.2
    let cat_name := (category_map_get category).1
    let cats := if acc.2.contains cat_name then acc.2 else acc.2 ++ [cat_name]
    (acc.1 ++ build_category_devices env usb category cat_name devices, cats))
    ([], [])

def build_entries (env : Env) (usb : Option UsbMap)
    (m : List (String × List DeviceInfo)) (gpus : List GpuDevice) : List Entry :=
  let bc := build_from_hwinfo env usb m
  if !gpus.isEmpty && !bc.2.contains "Display adapters" then
    bc.1 ++ gpus.map (fun g => add_device_to_tree env usb (Dev.gpu g) "Display adapters")
  else bc.1

-- One full refresh pass.  refresh_hwinfo_devices cannot raise (all its
-- external calls are wrapped in except clauses); detect_gpus can, through
-- the uncaught PermissionError of detect_gpus_inxi.
def refresh_devices (env : Env) (s : AppState) : Except PyExc (List Entry × AppState) :=
  match detect_gpus env s.cachedGpuDevices with
  | Except.error e => Except.error e
  | Except.ok gc =>
    Except.ok (build_entries env s.usbDevicesInfo (refresh_hwinfo_devices env s.hwinfoDevices) gc.1,
      ⟨gc.2, refresh_hwinfo_devices env s.hwinfoDevices, s.usbDevicesInfo⟩)

-- Convenience projections used by concrete runs below.
def refresh_entries (env : Env) (s : AppState) : List Entry :=
  match refresh_devices env s with
  | Except.ok r => r.1
  | Except.error _ => []

def refresh_state (env : Env) (s : AppState) : AppState :=
  match refresh_devices env s with
  | Except.ok r => r.2
  | Except.error _ => s

def count_devpath (l : List Entry) (p : String) : Nat :=
  (l.filter (fun e => e.DEVPATH == p)).length

-- ======================================================================
-- should_show_device: the device-visibility filter.  The Python function
-- can return True, False or fall through to None; the hid branch touches
-- the never-created usb_devices_info attribute, so it can also raise
-- AttributeError.
-- ======================================================================

def should_show_device (usb : Option UsbMap) (d : UdevDevice) :
    Except PyExc (Option Bool) :=
  if !IMPORTANT_SUBSYSTEMS.contains d.subsystem &&
      !(["graphics", "drm"].contains d.subsystem) then
    Except.ok (some false)
  else if containsSub "virtual" (pyLower d.sys_name) then
    Except.ok (some false)
  else if d.subsystem == "platform" then
    Except.ok (some false)
  else if d.subsystem == "usb" then
    if d.get "DEVTYPE" == some "usb_device" then Except.ok (some true)
    else Except.ok (some false)
  else if d.subsystem == "block" then
    if ["loop", "ram", "dm-", "zram", "md", "nvme"].any (fun p => pyStartsWith d.sys_name p) then
      if pyStartsWith d.sys_name "nvme" && !pyEndsWith d.sys_name "p" then Except.ok (some true)
      else Except.ok (some false)
    else if strEndsWithDigit d.sys_name then
      if containsSub "nvme" d.sys_name && !containsSub "p" d.sys_name then Except.ok (some true)
      else Except.ok (some false)
    else if pyStartsWith d.sys_name "sr" then Except.ok (some false)
    else if matchShd d.sys_name || matchNvmeMain d.sys_name then Except.ok (some true)
    else Except.ok (some false)
  else if d.subsystem == "input" then
    if pyStartsWith d.sys_name "mouse" then Except.ok (some true)
    else if pyStartsWith d.sys_name "event" || pyStartsWith d.sys_name "input" then
      if containsSub "js" d.sys_name then Except.ok (some false)
      else Except.ok (some (["event0", "event1", "event2", "event3"].contains d.sys_name))
    else Except.ok (some false)
  else if d.subsystem == "hid" then
    if containsSub ":" d.sys_name then
      match get_usb_device_key_from_hid_id d.sys_name with
      | some device_key =>
        -- `device_key and device_key in self.usb_devices_info`: the key is
        -- truthy (it always contains ':'), so the membership test touches
        -- the usb_devices_info attribute
        match usb with
        | none => Except.error PyExc.attributeError
        | some m =>
          -- both the lookup branch and the fallback return True
          if (dictGet m device_key).isSome then Except.ok (some true)
          else Except.ok (some true)
      | none => Except.ok (some true)
    else Except.ok (some false)
  else Except.ok none   -- fall through the end of the function: None

-- ======================================================================
-- Hotplug watcher: setup_monitor subscribes the netlink monitor to four
-- subsystems; on_hardware_change drains one event and schedules one
-- refresh 500 ms later, with every exception caught and logged.
-- ======================================================================

-- The four monitor.filter_by calls of setup_monitor, in order.
def monitor_filter_subsystems : List String := ["usb", "input", "net", "block"]

-- on_hardware_change at time t: the list of QTimer.singleShot refresh
-- times it schedules (the try body runs receive_device, then schedules
-- one shot at t + 500; the except clause only prints).
def on_hardware_change (recv : Except PyExc UdevDevice) (t : Nat) : List Nat :=
  match recv with
  | Except.ok _ => [t + 500]
  | Except.error _ => []

-- Same handler with its exception behaviour explicit: the except clause
-- catches every exception, so the slot never propagates one.
def on_hardware_change_exc (recv : Except PyExc UdevDevice) (t : Nat) :
    Except PyExc (List Nat) :=
  match recv with
  | Except.ok _ => Except.ok [t + 500]
  | Except.error _ => Except.ok []   -- caught and logged

-- Sequentially deliver a trace of (arrival time, receive outcome)
-- notifications and collect every scheduled refresh time.
def schedule_times : List (Nat × Except PyExc UdevDevice) → List Nat
  | [] => []
  | (t, recv) :: rest => on_hardware_change recv t ++ schedule_times rest

def process_events_exc : List (Nat × Except PyExc UdevDevice) → Except PyExc (List Nat)
  | [] => Except.ok []
  | (t, recv) :: rest =>
    match on_hardware_change_exc recv t with
    | Except.error e => Except.error e
    | Except.ok l =>
      match process_events_exc rest with
      | Except.error e => Except.error e
      | Except.ok l2 => Except.ok (l ++ l2)

-- ======================================================================
-- Concrete simulated environments used by the claim analyses.
-- ======================================================================

-- An environment in which every external source fails with a missing
-- binary / missing file; every detector degrades to its default.
def env_all_absent : Env := {}

-- C1: hwinfo reports a serial device at /dev/ttyUSB0 and the USB-serial
-- scan finds the same /dev/ttyUSB0, so two emitted entries carry the same
-- device path.
def c1_env : Env :=
  { hwinfo_short := ToolRes.ok ⟨0, "serial:\n/dev/ttyUSB0  X /dev/ttyUSB0"⟩,
    find_ttyusb := ToolRes.ok ⟨0, "/dev/ttyUSB0"⟩,
    path_exists := fun p => p == "/dev/ttyUSB0" }

-- C2: hwinfo exits with status 1 (keeping the stale dictionary) while the
-- USB-serial scan keeps finding /dev/ttyUSB0.
def c2_env : Env :=
  { hwinfo_short := ToolRes.ok ⟨1, ""⟩,
    find_ttyusb := ToolRes.ok ⟨0, "/dev/ttyUSB0"⟩,
    path_exists := fun p => p == "/dev/ttyUSB0" }

-- C3: the inxi binary exists but is not executable: subprocess.run raises
-- PermissionError, which detect_gpus_inxi's except tuple does not catch.
def c3_env : Env := { inxi_g := ToolRes.err ToolErr.permission }

-- C4: hwinfo reports a loopback network interface.
def c4_env : Env :=
  { hwinfo_short := ToolRes.ok ⟨0, "network interface:\nlo Loopback interface"⟩ }

-- C5: first refresh detects one NVIDIA GPU via inxi; second refresh runs
-- with inxi gone, and serves the cached GPU.
def c5_env1 : Env :=
  { inxi_g := ToolRes.ok ⟨0, "Device-1: NVIDIA GA104\ndriver: nvidia"⟩ }

def c5_env2 : Env := {}

def c5_state1 : AppState := refresh_state c5_env1 init_state

def c2_state1 : AppState := refresh_state c2_env init_state


-- ======================================================================
-- Derived predicates used in the claim statements.
-- ======================================================================

-- The hwinfo dictionary is rebuilt (exit status 0) or reset by the except
-- clause (an exception); only a nonzero exit status keeps the old one.
def hwinfo_resets (env : Env) : Bool :=
  match env.hwinfo_short with
  | ToolRes.ok out => out.returncode == 0
  | ToolRes.err _ => true

-- The inxi invocation fails with the one exception its handler does not
-- catch.
def inxi_permission_error (env : Env) : Bool :=
  match env.inxi_g with
  | ToolRes.err ToolErr.permission => true
  | _ => false

def except_ok {ε α : Type} : Except ε α → Bool
  | Except.ok _ => true
  | Except.error _ => false

-- The current enumeration pass itself detects at least one GPU.
def gpus_found (env : Env) : Bool :=
  match detect_gpus_inxi env with
  | Except.ok l => !(filter_real_gpus l).isEmpty
  | Except.error _ => false

-- ======================================================================
-- Support lemmas.
-- ======================================================================

theorem hwinfo_raw_const (env : Env) (h : hwinfo_resets env = true)
    (m₁ m₂ : List (String × List DeviceInfo)) : hwinfo_raw env m₁ = hwinfo_raw env m₂ := by
  unfold hwinfo_raw
  unfold hwinfo_resets at h
  cases henv : env.hwinfo_short with
  | ok out =>
    rw [henv] at h
    simp only [beq_iff_eq] at h
    simp [h]
  | err e => rfl

theorem refresh_hwinfo_const (env : Env) (h : hwinfo_resets env = true)
    (m₁ m₂ : List (String × List DeviceInfo)) :
    refresh_hwinfo_devices env m₁ = refresh_hwinfo_devices env m₂ := by
  unfold refresh_hwinfo_devices
  rw [hwinfo_raw_const env h m₁ m₂]

theorem detect_gpus_fix (env : Env) (c r c' : List GpuDevice)
    (h : detect_gpus env c = Except.ok (r, c')) :
    detect_gpus env c' = Except.ok (r, c') := by
  unfold detect_gpus at h ⊢
  cases hi : detect_gpus_inxi env with
  | error e =>
    rw [hi] at h
    simp at h
  | ok l =>
    rw [hi] at h
    by_cases hf : (filter_real_gpus l).isEmpty = true
    · simp [hf] at h ⊢
      obtain ⟨h1, h2⟩ := h
      subst h2
      exact h1
    · simp [hf] at h ⊢
      exact h

-- ======================================================================
-- Claim C2.
-- ======================================================================

/-- C2 (corrected): running refresh_devices twice in a row against one
unchanged environment yields the identical entry list (and state) both
times, PROVIDED the hwinfo invocation does not exit with a nonzero status
(exit 0 rebuilds the dictionary and an exception resets it; only a nonzero
exit keeps the stale dictionary, which breaks idempotence as the
counterexample shows). -/
theorem c2_refresh_idempotent (env : Env) (s : AppState) (o : List Entry) (s' : AppState)
    (hres : hwinfo_resets env = true)
    (h1 : refresh_devices env s = Except.ok (o, s')) :
    refresh_devices env s' = Except.ok (o, s') := by
  unfold refresh_devices at h1 ⊢
  cases hdg : detect_gpus env s.cachedGpuDevices with
  | error e => rw [hdg] at h1; cases h1
  | ok gc =>
    obtain ⟨gpus, cache'⟩ := gc
    rw [hdg] at h1
    simp only [Except.ok.injEq, Prod.mk.injEq] at h1
    obtain ⟨ho, hs⟩ := h1
    subst hs
    have hfix := detect_gpus_fix env s.cachedGpuDevices gpus cache' hdg
    simp only [] at hfix ⊢
    rw [hfix]
    rw [refresh_hwinfo_const env hres
      (refresh_hwinfo_devices env s.hwinfoDevices) s.hwinfoDevices]
    dsimp only
    rw [ho]

/-- C2 witness: in the all-sources-absent environment (hwinfo raises, so
the dictionary resets), a first refresh returns the empty entry list and
the initial state, and the theorem applies to it. -/
theorem c2_witness :
    hwinfo_resets env_all_absent = true ∧
    refresh_devices env_all_absent init_state = Except.ok ([], init_state) :=
  ⟨rfl, c2_refresh_idempotent env_all_absent init_state [] init_state rfl rfl⟩

/-- C2 counterexample: with hwinfo exiting nonzero (stale dictionary kept)
and a USB serial adapter present, the first refresh emits one entry and
the immediately following refresh on the unchanged environment emits two
(the com-port list is extended again), so the two device maps differ. -/
theorem c2_counterexample :
    (refresh_entries c2_env init_state).length = 1 ∧
    (refresh_entries c2_env c2_state1).length = 2 :=
  ⟨rfl, rfl⟩

-- ======================================================================
-- Claim C1.
-- ======================================================================

theorem filter_real_gpus_aux_sound (l : List GpuDevice) :
    ∀ seen : List String,
      ((filter_real_gpus_aux l seen).Pairwise
        (fun a b => gpu_dedup_id a ≠ gpu_dedup_id b)) ∧
      (∀ g ∈ filter_real_gpus_aux l seen, seen.contains (gpu_dedup_id g) = false) := by
  induction l with
  | nil =>
    intro seen
    constructor
    · simp [filter_real_gpus_aux]
    · intro g hg
      simp [filter_real_gpus_aux] at hg
  | cons g rest ih =>
    intro seen
    rw [filter_real_gpus_aux]
    split_ifs with h1 h2 h3 h4
    · exact ih seen
    · exact ih seen
    · exact ih seen
    · exact ih seen
    · constructor
      · refine List.Pairwise.cons ?_ (ih (gpu_dedup_id g :: seen)).1
        intro b hb heq
        have hb2 := (ih (gpu_dedup_id g :: seen)).2 b hb
        rw [← heq] at hb2
        simp [List.contains_cons] at hb2
      · intro x hx
        rcases List.mem_cons.mp hx with rfl | hx'
        · simpa using h4
        · have hx2 := (ih (gpu_dedup_id g :: seen)).2 x hx'
          simp only [List.contains_cons, Bool.or_eq_false_iff] at hx2
          exact hx2.2

/-- C1 (corrected, amended part): the only deduplication refresh_devices
performs is among the separately detected GPU entries — filter_real_gpus
never returns two GPU objects with the same normalized vendor-and-model
identifier.  (Per-device-path uniqueness does not hold; see the
counterexample.) -/
theorem c1_gpu_entries_unique (l : List GpuDevice) :
    (filter_real_gpus l).Pairwise (fun a b => gpu_dedup_id a ≠ gpu_dedup_id b) :=
  (filter_real_gpus_aux_sound l []).1

/-- C1 counterexample: in an environment where hwinfo reports the serial
device /dev/ttyUSB0 and the USB-serial scan also finds /dev/ttyUSB0, one
refresh emits two entries whose DEVPATH is the same "/dev/ttyUSB0" — the
device map does not contain at most one entry per device path. -/
theorem c1_counterexample :
    count_devpath (refresh_entries c1_env init_state) "/dev/ttyUSB0" = 2 ∧
    ¬ count_devpath (refresh_entries c1_env init_state) "/dev/ttyUSB0" ≤ 1 :=
  ⟨rfl, by decide⟩

-- ======================================================================
-- Claim C3.
-- ======================================================================

theorem detect_gpus_ok_of_inxi_ok (env : Env) (c l : List GpuDevice)
    (hi : detect_gpus_inxi env = Except.ok l) :
    ∃ p, detect_gpus env c = Except.ok p := by
  unfold detect_gpus
  rw [hi]
  dsimp only
  split
  · exact ⟨_, rfl⟩
  · exact ⟨_, rfl⟩

/-- C3 (corrected): a refresh completes without raising for every
environment in which the inxi invocation does not fail with a permission
error: every other failing source (missing binary, nonzero exit, timeout,
permission denial elsewhere, malformed output) degrades to an
absent/default value inside its own except clause.  The inxi handler
catches only timeout, called-process and missing-binary errors, so a
PermissionError there escapes (see the counterexample). -/
theorem c3_refresh_never_raises (env : Env) (s : AppState)
    (h : inxi_permission_error env = false) :
    except_ok (refresh_devices env s) = true := by
  have hok : ∃ l, detect_gpus_inxi env = Except.ok l := by
    cases henv : env.inxi_g with
    | ok out =>
      refine ⟨if out.returncode == 0 then parse_inxi_gpus out.stdout else [], ?_⟩
      simp [detect_gpus_inxi, henv]
    | err e =>
      cases e with
      | fileNotFound => exact ⟨[], by simp [detect_gpus_inxi, henv]⟩
      | timeout => exact ⟨[], by simp [detect_gpus_inxi, henv]⟩
      | permission =>
        unfold inxi_permission_error at h
        rw [henv] at h
        cases h
  obtain ⟨l, hl⟩ := hok
  obtain ⟨p, hp⟩ := detect_gpus_ok_of_inxi_ok env s.cachedGpuDevices l hl
  unfold refresh_devices
  rw [hp]
  rfl

/-- C3 witness: in the all-sources-absent environment the refresh
completes without raising. -/
theorem c3_witness :
    inxi_permission_error env_all_absent = false ∧
    except_ok (refresh_devices env_all_absent init_state) = true :=
  ⟨rfl, c3_refresh_never_raises env_all_absent init_state rfl⟩

/-- C3 counterexample: when the inxi invocation raises PermissionError,
refresh_devices propagates it — the except tuple in detect_gpus_inxi
names only TimeoutExpired, CalledProcessError and FileNotFoundError. -/
theorem c3_counterexample :
    refresh_devices c3_env init_state = Except.error PyExc.permission :=
  rfl

-- ======================================================================
-- Claim C4.
-- ======================================================================

/-- C4 (corrected): a network device matching any virtual-interface
pattern (the loopback name "lo" included) is REMOVED from the network
device list by filter_network_devices — it never appears in the filtered
output at all, rather than appearing with a hidden flag (the emitted
entries carry no hidden flag). -/
theorem c4_hidden_network_removed (l : List DeviceInfo) (d : DeviceInfo)
    (h : net_should_hide d = true) : d ∉ filter_network_list l := by
  induction l with
  | nil => simp [filter_network_list]
  | cons a rest ih =>
    rw [filter_network_list]
    by_cases ha : net_should_hide a = true
    · rw [if_pos ha]; exact ih
    · rw [if_neg ha]
      by_cases hk : net_keep a = true
      · rw [if_pos hk]
        intro hmem
        rcases List.mem_cons.mp hmem with heq | hmem'
        · rw [heq] at h; exact ha h
        · exact ih hmem'
      · rw [if_neg hk]; exact ih

def c4_lo_device : DeviceInfo := { name := "lo" }

/-- C4 witness: the loopback interface ("lo") matches the hidden pattern
list and is absent from the filtered output. -/
theorem c4_witness :
    net_should_hide c4_lo_device = true ∧
    c4_lo_device ∉ filter_network_list [c4_lo_device] :=
  ⟨rfl, c4_hidden_network_removed [c4_lo_device] c4_lo_device rfl⟩

/-- C4 counterexample: a simulated device graph whose hwinfo output
reports exactly one network interface, the loopback "lo": the refresh
output contains NO entry at all for it (and no hidden flag exists in the
emitted data), contradicting the claim that the loopback is present with
isHidden = true. -/
theorem c4_counterexample :
    refresh_entries c4_env init_state = [] :=
  rfl

-- ======================================================================
-- Claim C5.
-- ======================================================================

/-- C5 (corrected): the refresh output is a function of the current
enumeration alone PROVIDED the hwinfo invocation does not exit nonzero
(else the stale hwinfo dictionary is reused), the current pass itself
detects at least one GPU (else the cached GPU devices of an earlier
refresh are served), and the never-populated lsusb cache attribute agrees
(it is never written by any refresh).  Under these conditions two
arbitrary prior states produce identical refresh results. -/
theorem c5_output_state_independent (env : Env) (s₁ s₂ : AppState)
    (hres : hwinfo_resets env = true)
    (husb : s₁.usbDevicesInfo = s₂.usbDevicesInfo)
    (hg : gpus_found env = true) :
    refresh_devices env s₁ = refresh_devices env s₂ := by
  unfold refresh_devices detect_gpus
  cases hi : detect_gpus_inxi env with
  | error e =>
    unfold gpus_found at hg
    rw [hi] at hg
  | ok l =>
    unfold gpus_found at hg
    rw [hi] at hg
    dsimp only at hg ⊢
    simp only [if_pos hg]
    rw [refresh_hwinfo_const env hres s₁.hwinfoDevices s₂.hwinfoDevices, husb]

def c5_alt_state : AppState :=
  ⟨[⟨"g0", "/p", "VEND", "MODELX"⟩], [("x", [])], none⟩

/-- C5 witness: with hwinfo absent (dictionary reset) and inxi reporting
one NVIDIA GPU, refreshing from the initial state and from an unrelated
state with a different GPU cache and hwinfo dictionary gives identical
results. -/
theorem c5_witness :
    gpus_found c5_env1 = true ∧
    refresh_devices c5_env1 init_state = refresh_devices c5_env1 c5_alt_state :=
  ⟨rfl, c5_output_state_independent c5_env1 init_state c5_alt_state rfl rfl rfl⟩

/-- C5 counterexample: the first refresh (inxi present) detects an NVIDIA
GPU; a second refresh against a DIFFERENT environment in which inxi is
gone reuses the cached GPU device and emits the identical entry list, so
device data obtained in an earlier pass populates a later refresh. -/
theorem c5_counterexample :
    refresh_entries c5_env1 init_state = refresh_entries c5_env2 c5_state1 ∧
    refresh_entries c5_env1 init_state ≠ [] ∧
    c5_env1.inxi_g ≠ c5_env2.inxi_g :=
  ⟨rfl, by decide, by decide⟩

-- ======================================================================
-- Claims C6 and C7.
-- ======================================================================

/-- C6 (corrected): the watcher subscribes to exactly the usb, input, net
and block subsystems, and each successfully drained notification at time t
schedules exactly one refresh at t + 500 ms — one refresh per event, with
no coalescing: a trace of n readable events yields n scheduled refreshes
(see the counterexample for a burst). -/
theorem c6_monitor_behaviour :
    monitor_filter_subsystems = ["usb", "input", "net", "block"] ∧
    ∀ evs : List (Nat × Except PyExc UdevDevice),
      schedule_times evs = (evs.filter (fun ev => except_ok ev.2)).map (fun ev => ev.1 + 500) := by
  refine ⟨rfl, ?_⟩
  intro evs
  induction evs with
  | nil => rfl
  | cons ev rest ih =>
    obtain ⟨t, recv⟩ := ev
    cases recv with
    | ok d => simp [schedule_times, on_hardware_change, except_ok, ih]
    | error e => simp [schedule_times, on_hardware_change, except_ok, ih]

def c6_dummy : UdevDevice := ⟨"usb", "1-1", []⟩

/-- C6 counterexample: a burst of two hotplug events one millisecond apart
schedules two refreshes (at 500 and 501), not one — QTimer.singleShot is
issued once per notification and performs no coalescing. -/
theorem c6_counterexample :
    schedule_times [(0, Except.ok c6_dummy), (1, Except.ok c6_dummy)] = [500, 501] ∧
    (schedule_times [(0, Except.ok c6_dummy), (1, Except.ok c6_dummy)]).length ≠ 1 :=
  ⟨rfl, by decide⟩

/-- C7 (confirmed): the notification handler never propagates an
exception — processing any trace of events, malformed reads included,
yields a normal result, and an event whose read raises contributes no
scheduled refresh while later events are still processed. -/
theorem c7_handler_never_propagates :
    (∀ evs : List (Nat × Except PyExc UdevDevice), ∃ l, process_events_exc evs = Except.ok l) ∧
    (∀ (t : Nat) (e : PyExc) (rest : List (Nat × Except PyExc UdevDevice)),
      schedule_times ((t, Except.error e) :: rest) = schedule_times rest) := by
  constructor
  · intro evs
    induction evs with
    | nil => exact ⟨[], rfl⟩
    | cons ev rest ih =>
      obtain ⟨t, recv⟩ := ev
      obtain ⟨l, hl⟩ := ih
      cases recv with
      | ok d => exact ⟨(t + 500) :: l, by simp [process_events_exc, on_hardware_change_exc, hl]⟩
      | error e => exact ⟨l, by simp [process_events_exc, on_hardware_change_exc, hl]⟩
  · intro t e rest
    simp [schedule_times, on_hardware_change]

-- ======================================================================
-- Claims C8, C9, C10.
-- ======================================================================

theorem should_show_usb_eval (u : Option UsbMap) (n : String)
    (props : List (String × String)) :
    should_show_device u ⟨"usb", n, props⟩ =
      (if containsSub "virtual" (pyLower n) then Except.ok (some false)
       else if dictGet props "DEVTYPE" == some "usb_device" then Except.ok (some true)
       else Except.ok (some false)) :=
  rfl

/-- C8 (corrected): for a device of the usb subsystem the visibility
filter accepts (returns True) exactly when the kernel name does not
contain the "virtual" substring AND the DEVTYPE property equals
"usb_device" — the bare DEVTYPE iff of the claim fails on virtual-named
devices (see the counterexample). -/
theorem c8_usb_filter (u : Option UsbMap) (n : String)
    (props : List (String × String)) :
    should_show_device u ⟨"usb", n, props⟩ = Except.ok (some true) ↔
      (containsSub "virtual" (pyLower n) = false ∧
       dictGet props "DEVTYPE" = some "usb_device") := by
  rw [should_show_usb_eval]
  by_cases hv : containsSub "virtual" (pyLower n) = true
  · simp [hv]
  · have hv' : containsSub "virtual" (pyLower n) = false := by
      simpa using hv
    by_cases hd : dictGet props "DEVTYPE" = some "usb_device"
    · simp [hv', hd]
    · have hd' : (dictGet props "DEVTYPE" == some "usb_device") = false := by
        simpa using hd
      simp [hv', hd', hd]

/-- C8 counterexample: a usb device whose DEVTYPE is "usb_device" but
whose kernel name contains "virtual" is rejected, so acceptance is not
equivalent to the DEVTYPE test alone. -/
theorem c8_counterexample :
    should_show_device none ⟨"usb", "virtual0", [("DEVTYPE", "usb_device")]⟩ =
      Except.ok (some false) :=
  rfl

/-- C9 (code_bug): the visibility filter ACCEPTS the NVMe partition
nvme0n1p1 — it starts with "nvme" and does not end with the letter "p",
so the branch meant to "allow only the main device (not partitions)"
(the source's own comment) returns True for it, contradicting the claim
that partitions are excluded and only whole disks pass. -/
theorem c9_nvme_partition_accepted :
    should_show_device none ⟨"block", "nvme0n1p1", []⟩ = Except.ok (some true) :=
  rfl

/-- C10 (confirmed): any device whose subsystem passes the
important-subsystem, virtual-name and platform checks but is none of usb,
block, input, hid falls through every branch of should_show_device and
yields Python's implicit None — it can never be accepted by this
filter. -/
theorem c10_fallthrough (u : Option UsbMap) (d : UdevDevice)
    (himp : (IMPORTANT_SUBSYSTEMS.contains d.subsystem ||
             ["graphics", "drm"].contains d.subsystem) = true)
    (hv : containsSub "virtual" (pyLower d.sys_name) = false)
    (hplat : (d.subsystem == "platform") = false)
    (husb : (d.subsystem == "usb") = false)
    (hblk : (d.subsystem == "block") = false)
    (hin : (d.subsystem == "input") = false)
    (hhid : (d.subsystem == "hid") = false) :
    should_show_device u d = Except.ok none := by
  unfold should_show_device
  have h1 : (!IMPORTANT_SUBSYSTEMS.contains d.subsystem &&
      !(["graphics", "drm"].contains d.subsystem)) = false := by
    rw [Bool.or_eq_true] at himp
    rcases himp with h | h
    · rw [h]; rfl
    · rw [h]; simp
  rw [if_neg (by rw [h1]; simp)]
  rw [if_neg (by rw [hv]; simp)]
  rw [if_neg (by rw [hplat]; simp)]
  rw [if_neg (by rw [husb]; simp)]
  rw [if_neg (by rw [hblk]; simp)]
  rw [if_neg (by rw [hin]; simp)]
  rw [if_neg (by rw [hhid]; simp)]

/-- C10 witness: a pci device with a non-virtual name falls through to
None. -/
theorem c10_witness :
    (IMPORTANT_SUBSYSTEMS.contains "pci" || ["graphics", "drm"].contains "pci") = true ∧
    should_show_device none ⟨"pci", "slot0", []⟩ = Except.ok none :=
  ⟨rfl, c10_fallthrough none ⟨"pci", "slot0", []⟩ rfl rfl rfl rfl rfl rfl rfl⟩

-- ======================================================================
-- Concrete witnesses for the remaining claim theorems.
-- ======================================================================

def c1_gpu_a : GpuDevice := ⟨"gpu_nvidia_A", "/sys/class/drm/nvidia", "NVIDIA", "GPU A1"⟩

def c1_gpu_b : GpuDevice := ⟨"gpu_amd_B", "/sys/class/drm/amd", "AMD", "GPU B2"⟩

/-- C1 witness: the GPU dedup property at a concrete two-GPU list. -/
theorem c1_witness :
    (filter_real_gpus [c1_gpu_a, c1_gpu_b]).Pairwise
      (fun a b => gpu_dedup_id a ≠ gpu_dedup_id b) :=
  c1_gpu_entries_unique [c1_gpu_a, c1_gpu_b]

/-- C6 witness: one readable event at time 3 schedules exactly the single
refresh time 503. -/
theorem c6_witness :
    schedule_times [(3, Except.ok c6_dummy)] = [503] :=
  (c6_monitor_behaviour.2 [(3, Except.ok c6_dummy)]).trans rfl

/-- C7 witness: a malformed event contributes nothing and processing
continues. -/
theorem c7_witness :
    schedule_times [(0, Except.error PyExc.timeout)] = schedule_times [] :=
  c7_handler_never_propagates.2 0 PyExc.timeout []

/-- C8 witness: a normally named usb device with DEVTYPE usb_device is
accepted, through the amended equivalence. -/
theorem c8_witness :
    should_show_device none ⟨"usb", "1-1.4", [("DEVTYPE", "usb_device")]⟩ =
      Except.ok (some true) :=
  (c8_usb_filter none "1-1.4" [("DEVTYPE", "usb_device")]).mpr ⟨rfl, rfl⟩
